import Mathlib

/-!
Module r.area: the row scan of `main` (src/main.c).

A shallow embedding of `main` of `src/main.c`, the whole program of the
module, and the properties of its row-streaming accumulation.

* The C numeric types `double`/`DCELL` and `float`/`FCELL` and the operations
  `main` applies to them are the fields of `Arith`; the embedding is generic in
  them, so every theorem holds for IEEE-754 arithmetic as for any other
  interpretation.  `intArith` is a small exact interpretation used to evaluate
  the program on concrete grids.
* The GRASS library and libc are collaborators: what each call returns is a
  field of `Env`.
* A `G_fatal_error`, the `exit(EXIT_FAILURE)` after `G_parser` and the
  dereference of a NULL answer end the run: `main` returns `Except Fatal _`.
-/

namespace RArea

/-! ## Numeric types -/

/-- Arithmetic of the program: the types `double` (`DCELL`) and `float`
(`FCELL`) with the constants and operations `main` uses on them. -/
structure Arith where
  /-- Type `double`, which is also `DCELL`. -/
  D : Type
  /-- Type `float`, which is `FCELL`. -/
  F : Type
  /-- Literal `0.0`. -/
  zero : D
  /-- Literal `1.0`. -/
  one : D
  /-- Value of `strtod("NAN(char-sequence)", NULL)` (line 136). -/
  nan : D
  /-- Addition of doubles, the `+` of `tsum += ...`. -/
  add : D → D → D
  /-- Multiplication of doubles, as in `c*cellarea` and `tsum * fscale`. -/
  mul : D → D → D
  /-- Conversion `int → double`, implicit in `c*cellarea` (line 259). -/
  ofCELL : Int → D
  /-- Promotion `float → double`, implicit in `f*cellarea` (line 269). -/
  ofFCELL : F → D
  /-- Narrowing `double → float`, implicit in a store through `(FCELL *)`. -/
  toFCELL : D → F
  /-- Test `isnan(f)` on a float (line 268). -/
  isnanF : F → Bool
  /-- Test `isnan(d)` on a double (line 278). -/
  isnanD : D → Bool

/-- The three raster map types of `RASTER_MAP_TYPE`. -/
inductive RASTER_MAP_TYPE where
  | CELL_TYPE
  | FCELL_TYPE
  | DCELL_TYPE
  deriving DecidableEq, Repr

open RASTER_MAP_TYPE

/-- A row buffer behind a `void *`: what the program reads at index `col`
through each of the three pointer casts it uses. -/
structure RasterBuf (A : Arith) where
  /-- Read `((CELL *) buf)[col]`. -/
  asCELL : Nat → Int
  /-- Read `((FCELL *) buf)[col]`. -/
  asFCELL : Nat → A.F
  /-- Read `((DCELL *) buf)[col]`. -/
  asDCELL : Nat → A.D

/-- One cell of the output buffer `outrast`: the value last stored at a column,
tagged with the pointer cast of the store. -/
inductive OutCell (A : Arith) where
  | fcell (v : A.F)
  | dcell (v : A.D)

/-- Ways a run ends without reaching `exit(EXIT_SUCCESS)`. All but the last are
the `G_fatal_error` calls of `main` and the exit after `G_parser`. -/
inductive Fatal where
  /-- Line 110, "option field must be given when raster mask is given". -/
  | field_must_be_given
  /-- Line 145, `exit(EXIT_FAILURE)` when `G_parser` fails. -/
  | parser_exit
  /-- Line 164, "Raster map <%s> not found". -/
  | raster_not_found
  /-- Line 167, "<%s> is an illegal file name". -/
  | illegal_file_name
  /-- Line 174, "Unable to open raster map <%s>" for the input. -/
  | unable_to_open_input
  /-- Line 178, "Unable to read file header of <%s>" for the input. -/
  | unable_to_read_header_input
  /-- Line 183, "Raster map <%s> must be of type CELL". -/
  | mask_must_be_CELL
  /-- Line 185, "Unable to open raster map <%s>" for the mask. -/
  | unable_to_open_mask
  /-- Line 187, "Unable to read file header of <%s>" for the mask. -/
  | unable_to_read_header_mask
  /-- Line 205, "Unable to create raster map <%s>". -/
  | unable_to_create_output
  /-- Line 210, "Cell size can not be measured". -/
  | cell_size_not_measured
  /-- Line 213, "Cell size is the same for all cells". -/
  | cell_size_same
  /-- Line 216, "Cell size error". -/
  | cell_size_error
  /-- Line 235, "Unable to read raster map <%s> row %d" for the input. -/
  | unable_to_read_input (row : Nat)
  /-- Line 239, "Unable to read raster map <%s> row %d" for the mask. -/
  | unable_to_read_mask (row : Nat)
  /-- Line 291, "Failed writing raster map <%s>". -/
  | failed_writing
  /-- Line 252, `atoi(field->answer)` with `field->answer == NULL`: no
  `G_fatal_error`, the behaviour of the call is undefined. -/
  | atoi_of_null
  deriving DecidableEq, Repr

/-! ## Options, flags and the parser -/

/-- Part of `struct Option` the program uses: the answer string, NULL or set. -/
structure Opt where
  answer : Option String

/-- Part of `struct Flag` the program uses: the answer, 0 or 1. -/
structure Flag where
  answer : Bool

/-- Library call `G_define_option()`: a fresh option, its answer NULL until the
program sets a default or `G_parser` stores what the command line gives. -/
def G_define_option : Opt := ⟨none⟩

/-- Library call `G_define_standard_option(G_OPT_R_INPUT)`: a fresh option as
from `G_define_option`. -/
def G_define_standard_option : Opt := ⟨none⟩

/-- Library call `G_define_flag()`: a fresh flag, its answer 0 until `G_parser`
sets it. -/
def G_define_flag : Flag := ⟨false⟩

/-- The options and flags `main` defines (lines 64-65). -/
structure Options where
  input : Opt
  output : Opt
  mask : Opt
  field : Opt
  scale : Opt
  flagq : Flag
  flagf : Flag
  flagn : Flag
  flaga : Flag

/-- What the user wrote on the command line (`argc`, `argv`): the value given
for each option, if any, and the flags given. -/
structure CommandLine where
  input : Option String
  output : Option String
  mask : Option String
  field : Option String
  scale : Option String
  q : Bool
  f : Bool
  n : Bool
  a : Bool

/-- Answer of an option after parsing: the value of the command line when one
is given, else the answer the option had (its default). -/
def parsed (given : Option String) (o : Opt) : Opt :=
  match given with
  | some s => ⟨some s⟩
  | none => o

/-- Library call `G_parser(argc, argv)` (named `G_parser_run` here): stores the command line into the
answers of the defined options and flags; fails (`none`, a nonzero return)
when the required input option is missing. -/
def G_parser_run (argv : CommandLine) (o : Options) : Option Options :=
  match argv.input with
  | none => none
  | some inname =>
    some
      { input := ⟨some inname⟩
        output := parsed argv.output o.output
        mask := parsed argv.mask o.mask
        field := parsed argv.field o.field
        scale := parsed argv.scale o.scale
        flagq := ⟨argv.q || o.flagq.answer⟩
        flagf := ⟨argv.f || o.flagf.answer⟩
        flagn := ⟨argv.n || o.flagn.answer⟩
        flaga := ⟨argv.a || o.flaga.answer⟩ }

/-! ## Collaborators -/

/-- Everything outside the program: the command line, the two libc conversions
and the results of the GRASS library calls of `main`. -/
structure Env (A : Arith) where
  argv : CommandLine
  /-- Call `atoi(s)` on a non-NULL string. -/
  atoi : String → Int
  /-- Call `atof(s)` on a non-NULL string. -/
  atof : String → A.D
  /-- Call `G_find_cell2(name, mapset)`: the mapset, or NULL when not found. -/
  G_find_cell2 : String → String → Option String
  /-- Call `G_legal_filename(name)`, negative when illegal. -/
  G_legal_filename : String → Int
  /-- Call `G_raster_map_type(name, mapset)`. -/
  G_raster_map_type : String → String → RASTER_MAP_TYPE
  /-- Call `G_open_cell_old(name, mapset)`: a file descriptor, negative on failure. -/
  G_open_cell_old : String → String → Int
  /-- Call `G_get_cellhd(name, mapset, &cellhd)`, negative on failure. -/
  G_get_cellhd : String → String → Int
  /-- Call `G_window_rows()`. -/
  G_window_rows : Nat
  /-- Call `G_window_cols()`. -/
  G_window_cols : Nat
  /-- Call `G_open_raster_new(name, type)`: a file descriptor, negative on failure. -/
  G_open_raster_new : String → RASTER_MAP_TYPE → Int
  /-- Call `G_begin_cell_area_calculations()`: 0, 1 or 2. -/
  G_begin_cell_area_calculations : Int
  /-- Call `G_area_of_cell_at_row(row)`. -/
  G_area_of_cell_at_row : Nat → A.D
  /-- Call `G_get_raster_row(fd, buf, row, type)`: the buffer it fills, or
  `none` for a negative return. -/
  G_get_raster_row : Int → Nat → RASTER_MAP_TYPE → Option (RasterBuf A)
  /-- Call `G_put_raster_row(fd, buf, type)`, negative on failure. -/
  G_put_raster_row : Int → List (OutCell A) → RASTER_MAP_TYPE → Int

/-! ## The row scan (lines 218-292) -/

/-- Values of the variables of `main` that the row loop reads and does not
change. -/
structure Vars (A : Arith) where
  nrows : Nat
  ncols : Nat
  infd : Int
  maskfd : Int
  outfd : Int
  outputdesired : Bool
  maskexist : Bool
  /-- Value of `flagf->answer` inside the loop. -/
  flagf : Bool
  /-- Value of `flaga->answer` inside the loop. -/
  flaga : Bool
  /-- Value of `field->answer` inside the loop. -/
  field_answer : Option String
  def_out_val : A.D
  in_type : RASTER_MAP_TYPE
  out_type : RASTER_MAP_TYPE

/-- Variables the row loop updates: the running sum `tsum`, the area factor
`cellarea`, and the rows handed to `G_put_raster_row` so far, oldest first. -/
structure LoopState (A : Arith) where
  tsum : A.D
  cellarea : A.D
  written : List (List (OutCell A))

/-- A store of the double `x` into `outrast[col]`: through `(FCELL *)` when
`flagf->answer` is set, which narrows `x`, else through `(DCELL *)`
(lines 245-249, 260-264, 270-274, 280-284). -/
def store (A : Arith) (flagf : Bool) (x : A.D) : OutCell A :=
  if flagf then OutCell.fcell (A.toFCELL x) else OutCell.dcell x

/-- Lines 256-286, the `switch (in_type)` of one column: from `tsum` and the
fill already stored in `outrast[col]` to the new `tsum` and `outrast[col]`. -/
def accumulate (A : Arith) (v : Vars A) (inrast : RasterBuf A) (cellarea : A.D)
    (tsum : A.D) (col : Nat) : A.D × OutCell A :=
  match v.in_type with
  | CELL_TYPE =>
    let c := inrast.asCELL col
    (A.add tsum (A.mul (A.ofCELL c) cellarea),
      store A v.flagf (A.mul (A.ofCELL c) cellarea))
  | FCELL_TYPE =>
    let f := inrast.asFCELL col
    if A.isnanF f then (tsum, store A v.flagf v.def_out_val)
    else
      (A.add tsum (A.mul (A.ofFCELL f) cellarea),
        store A v.flagf (A.mul (A.ofFCELL f) cellarea))
  | DCELL_TYPE =>
    let d := inrast.asDCELL col
    if A.isnanD d then (tsum, store A v.flagf v.def_out_val)
    else
      (A.add tsum (A.mul d cellarea), store A v.flagf (A.mul d cellarea))

/-- Lines 243-287 for one column: store the fill, apply the mask test
(`continue` when the mask cell differs from `atoi(field->answer)`), then
`accumulate`. The mask buffer `inmask` is `some` exactly when `maskexist`. -/
def process_col (A : Arith) (env : Env A) (v : Vars A) (inrast : RasterBuf A)
    (inmask : Option (RasterBuf A)) (cellarea : A.D) (tsum : A.D) (col : Nat) :
    Except Fatal (A.D × OutCell A) :=
  match inmask with
  | some mbuf =>
    match v.field_answer with
    | none => Except.error Fatal.atoi_of_null
    | some s =>
      if mbuf.asCELL col ≠ env.atoi s then
        Except.ok (tsum, store A v.flagf v.def_out_val)
      else Except.ok (accumulate A v inrast cellarea tsum col)
  | none => Except.ok (accumulate A v inrast cellarea tsum col)

/-- Lines 243-287, the column loop over the columns listed: the final `tsum`
and the cells of `outrast` at those columns, in order. -/
def col_loop (A : Arith) (env : Env A) (v : Vars A) (inrast : RasterBuf A)
    (inmask : Option (RasterBuf A)) (cellarea : A.D) :
    List Nat → A.D → Except Fatal (A.D × List (OutCell A))
  | [], tsum => Except.ok (tsum, [])
  | col :: rest, tsum =>
    match process_col A env v inrast inmask cellarea tsum col with
    | Except.error e => Except.error e
    | Except.ok (tsum1, o) =>
      match col_loop A env v inrast inmask cellarea rest tsum1 with
      | Except.error e => Except.error e
      | Except.ok (tsum2, os) => Except.ok (tsum2, o :: os)

/-- Lines 237-240: the mask row is read only when `maskexist`. -/
def read_mask (A : Arith) (env : Env A) (v : Vars A) (row : Nat) :
    Except Fatal (Option (RasterBuf A)) :=
  if v.maskexist then
    match env.G_get_raster_row v.maskfd row CELL_TYPE with
    | none => Except.error (Fatal.unable_to_read_mask row)
    | some mbuf => Except.ok (some mbuf)
  else Except.ok none

/-- Lines 221-292, the row loop over the rows listed. -/
def row_loop (A : Arith) (env : Env A) (v : Vars A) :
    List Nat → LoopState A → Except Fatal (LoopState A)
  | [], s => Except.ok s
  | row :: rest, s =>
    let cellarea := if v.flaga then env.G_area_of_cell_at_row row else s.cellarea
    match env.G_get_raster_row v.infd row v.in_type with
    | none => Except.error (Fatal.unable_to_read_input row)
    | some inrast =>
      match read_mask A env v row with
      | Except.error e => Except.error e
      | Except.ok inmask =>
        match col_loop A env v inrast inmask cellarea (List.range v.ncols) s.tsum with
        | Except.error e => Except.error e
        | Except.ok (tsum, outrast) =>
          if v.outputdesired then
            if env.G_put_raster_row v.outfd outrast v.out_type < 0 then
              Except.error Fatal.failed_writing
            else row_loop A env v rest ⟨tsum, cellarea, s.written ++ [outrast]⟩
          else row_loop A env v rest ⟨tsum, cellarea, s.written⟩

/-! ## The program -/

/-- Result of a run that reaches `exit(EXIT_SUCCESS)`. -/
structure Report (A : Arith) where
  /-- The value `tsum * fscale` that line 295 prints. -/
  printed : A.D
  /-- The rows handed to `G_put_raster_row`, first row first. -/
  written : List (List (OutCell A))

/-- Lines 294-295: the scale factor is `atof(scale->answer)`; a NULL answer
cannot arise, the program sets the default "1" before parsing. -/
def fscale (A : Arith) (env : Env A) (scale : Opt) : A.D :=
  match scale.answer with
  | some s => env.atof s
  | none => A.zero

/-- Lines 207-295: the cell-area capability checks, the row scan and the
report, from the variables as they are after the raster maps are opened. -/
def scan_and_report (A : Arith) (env : Env A) (v : Vars A) (scale : Opt) :
    Except Fatal (Report A) :=
  let beg_cell_area := env.G_begin_cell_area_calculations
  if beg_cell_area = 0 then Except.error Fatal.cell_size_not_measured
  else if beg_cell_area = 1 then Except.error Fatal.cell_size_same
  else if beg_cell_area ≠ 2 then Except.error Fatal.cell_size_error
  else
    -- `tsum = 0.0` (line 218), `cellarea = 1.0` (line 141), nothing written yet
    match row_loop A env v (List.range v.nrows) ⟨A.zero, A.one, []⟩ with
    | Except.error e => Except.error e
    | Except.ok s => Except.ok ⟨A.mul s.tsum (fscale A env scale), s.written⟩

/-- Lines 180-188: with `maskexist`, the mask must be of type CELL and it is
then opened; the result is `maskfd`. The mapset passed is the variable `mapset`,
which line 162 has overwritten with the mapset of the input. Without
`maskexist` the variable `maskfd` stays uninitialised (0 here) and the row
loop does not read it. -/
def open_mask (A : Arith) (env : Env A) (maskexist : Bool) (maskname : Option String)
    (mapset : String) : Except Fatal Int :=
  if maskexist then
    match maskname with
    | none => Except.ok 0
    | some m =>
      let mask_type := env.G_raster_map_type m mapset
      if mask_type ≠ CELL_TYPE then Except.error Fatal.mask_must_be_CELL
      else
        let maskfd := env.G_open_cell_old m mapset
        if maskfd < 0 then Except.error Fatal.unable_to_open_mask
        else if env.G_get_cellhd m mapset < 0 then
          Except.error Fatal.unable_to_read_header_mask
        else Except.ok maskfd
  else Except.ok 0

/-- Lines 199-205: with `outputdesired` the output raster is created; the
result is `outfd`, which stays uninitialised (0 here) otherwise. -/
def open_output (A : Arith) (env : Env A) (outputdesired : Bool) (result : Option String)
    (out_type : RASTER_MAP_TYPE) : Except Fatal Int :=
  if outputdesired then
    match result with
    | none => Except.ok 0
    | some r =>
      let outfd := env.G_open_raster_new r out_type
      if outfd < 0 then Except.error Fatal.unable_to_create_output else Except.ok outfd
  else Except.ok 0

/-- Line 166: the test `outputdesired && G_legal_filename(result) < 0`. -/
def illegal_result (A : Arith) (env : Env A) (outputdesired : Bool)
    (result : Option String) : Bool :=
  outputdesired &&
    (match result with
     | some r => decide (env.G_legal_filename r < 0)
     | none => false)

/-- Lines 148-205: find and open the raster maps, with the answers `G_parser`
stored in `o`; `outputdesired`, `out_type` and `def_out_val` are the values the
program computed before parsing. On success the variables for the row loop.
The input answer is never NULL after a successful `G_parser`. -/
def open_maps (A : Arith) (env : Env A) (o : Options) (outputdesired : Bool)
    (out_type : RASTER_MAP_TYPE) (def_out_val : A.D) : Except Fatal (Vars A) :=
  match o.input.answer with
  | none => Except.error Fatal.parser_exit
  | some inname =>
    let maskname := o.mask.answer
    let result := o.output.answer
    -- lines 155-160
    let maskexist : Bool :=
      match maskname with
      | some m => (env.G_find_cell2 m "").isSome
      | none => false
    -- lines 162-164
    match env.G_find_cell2 inname "" with
    | none => Except.error Fatal.raster_not_found
    | some mapset =>
      -- lines 166-167
      if illegal_result A env outputdesired result then
        Except.error Fatal.illegal_file_name
      else
        -- lines 170-178
        let in_type := env.G_raster_map_type inname mapset
        let infd := env.G_open_cell_old inname mapset
        if infd < 0 then Except.error Fatal.unable_to_open_input
        else if env.G_get_cellhd inname mapset < 0 then
          Except.error Fatal.unable_to_read_header_input
        else
          match open_mask A env maskexist maskname mapset with
          | Except.error e => Except.error e
          | Except.ok maskfd =>
            match open_output A env outputdesired result out_type with
            | Except.error e => Except.error e
            | Except.ok outfd =>
              Except.ok
                { nrows := env.G_window_rows
                  ncols := env.G_window_cols
                  infd := infd
                  maskfd := maskfd
                  outfd := outfd
                  outputdesired := outputdesired
                  maskexist := maskexist
                  flagf := o.flagf.answer
                  flaga := o.flaga.answer
                  field_answer := o.field.answer
                  def_out_val := def_out_val
                  in_type := in_type
                  out_type := out_type }

/-- Lines 76-205 of `main`: the definition of the options and flags, the
parser, and the opening of the raster maps; on success the variables for the
row loop and the scale option. The statements are kept in the order of the
source: the tests of lines 88, 109, 129 and 135 read the answers of the freshly
defined options and flags, and `G_parser` runs after them, at line 144. -/
def setup (A : Arith) (env : Env A) : Except Fatal (Vars A × Opt) :=
  -- lines 76-89
  let input := G_define_standard_option
  let output := G_define_option
  let outputdesired : Bool := output.answer.isSome
  -- lines 91-92
  let out_type := DCELL_TYPE
  let def_out_val := A.zero
  -- lines 95-110
  let mask := G_define_option
  let field := G_define_option
  if mask.answer.isSome && field.answer.isNone then
    Except.error Fatal.field_must_be_given
  else
    -- lines 113-119
    let scale : Opt := ⟨some "1"⟩
    -- lines 122-141
    let flagq := G_define_flag
    let flagf := G_define_flag
    let out_type := if flagf.answer then FCELL_TYPE else out_type
    let flagn := G_define_flag
    let def_out_val := if flagn.answer then A.nan else def_out_val
    let flaga := G_define_flag
    -- lines 144-145
    match G_parser_run env.argv ⟨input, output, mask, field, scale, flagq, flagf, flagn, flaga⟩ with
    | none => Except.error Fatal.parser_exit
    | some o =>
      match open_maps A env o outputdesired out_type def_out_val with
      | Except.error e => Except.error e
      | Except.ok v => Except.ok (v, o.scale)

/-- The program, `main` of src/main.c (lines 39-316), up to the report of
line 295: `setup`, then the capability checks, the row scan and the report. -/
def main (A : Arith) (env : Env A) : Except Fatal (Report A) :=
  match setup A env with
  | Except.error e => Except.error e
  | Except.ok (v, scale) => scan_and_report A env v scale

/-! ## An exact interpretation -/

/-- Sum or product of two values of `intArith`: NaN when an operand is NaN. -/
def lift2 (g : Int → Int → Int) : Option Int → Option Int → Option Int
  | some a, some b => some (g a b)
  | _, _ => none

/-- The doubles and floats with an integer value, and NaN (`none`). Integers
below 2^24 in magnitude are values of both `float` and `double`, and sums and
products of them that stay in that range are exact in IEEE-754 arithmetic, so
on such inputs this interpretation computes what the machine computes. -/
def intArith : Arith where
  D := Option Int
  F := Option Int
  zero := some 0
  one := some 1
  nan := none
  add := lift2 (fun a b => a + b)
  mul := lift2 (fun a b => a * b)
  ofCELL := fun c => some c
  ofFCELL := fun f => f
  toFCELL := fun d => d
  isnanF := Option.isNone
  isnanD := Option.isNone

/-! ## Vocabulary of the specification -/

/-- Sum of the doubles `xs` added to `t` one after the other, first to last:
the value of `tsum` after `tsum += x` for each `x` of `xs` in order. -/
def sum_from (A : Arith) (t : A.D) (xs : List A.D) : A.D :=
  xs.foldl A.add t

/-- A cell is null when the input is of a floating kind and the cell is NaN;
the program has no null test for an integer cell. -/
def is_null (A : Arith) (in_type : RASTER_MAP_TYPE) (inrast : RasterBuf A) (col : Nat) : Bool :=
  match in_type with
  | CELL_TYPE => false
  | FCELL_TYPE => A.isnanF (inrast.asFCELL col)
  | DCELL_TYPE => A.isnanD (inrast.asDCELL col)

/-- The value of an input cell as a double, according to the input kind. -/
def cell_value (A : Arith) (in_type : RASTER_MAP_TYPE) (inrast : RasterBuf A) (col : Nat) : A.D :=
  match in_type with
  | CELL_TYPE => A.ofCELL (inrast.asCELL col)
  | FCELL_TYPE => A.ofFCELL (inrast.asFCELL col)
  | DCELL_TYPE => inrast.asDCELL col

/-- MaskFilter of the specification: with no mask every column is included,
with a mask row the columns whose mask value equals the target field. -/
def is_included (A : Arith) (inmask : Option (RasterBuf A)) (target : Int) (col : Nat) : Bool :=
  match inmask with
  | none => true
  | some mbuf => decide (mbuf.asCELL col = target)

/-- A qualifying cell: included by the mask filter and not null. -/
def qualifies (A : Arith) (in_type : RASTER_MAP_TYPE) (inrast : RasterBuf A)
    (inmask : Option (RasterBuf A)) (target : Int) (col : Nat) : Bool :=
  is_included A inmask target col && !is_null A in_type inrast col

/-- Contributions `value * area_factor` of the qualifying cells among the
first `ncols` columns of a row, in column order. -/
def row_contributions (A : Arith) (in_type : RASTER_MAP_TYPE) (inrast : RasterBuf A)
    (inmask : Option (RasterBuf A)) (target : Int) (area : A.D) (ncols : Nat) : List A.D :=
  ((List.range ncols).filter (qualifies A in_type inrast inmask target)).map
    (fun col => A.mul (cell_value A in_type inrast col) area)

/-- Values of the qualifying cells among the first `ncols` columns of a row, in
column order. -/
def row_values (A : Arith) (in_type : RASTER_MAP_TYPE) (inrast : RasterBuf A)
    (inmask : Option (RasterBuf A)) (target : Int) (ncols : Nat) : List A.D :=
  ((List.range ncols).filter (qualifies A in_type inrast inmask target)).map
    (fun col => cell_value A in_type inrast col)

/-- The output row of the specification: `value * area_factor` stored at each
qualifying column, the fill value stored at every other column. -/
def row_output (A : Arith) (flagf : Bool) (fill : A.D) (in_type : RASTER_MAP_TYPE)
    (inrast : RasterBuf A) (inmask : Option (RasterBuf A)) (target : Int) (area : A.D)
    (ncols : Nat) : List (OutCell A) :=
  (List.range ncols).map (fun col =>
    if qualifies A in_type inrast inmask target col then
      store A flagf (A.mul (cell_value A in_type inrast col) area)
    else store A flagf fill)

/-- The target field of a run: `atoi` of the field answer (0 when there is no
answer, in which case no theorem below uses it with a mask). -/
def target_field (A : Arith) (env : Env A) (field_answer : Option String) : Int :=
  match field_answer with
  | some s => env.atoi s
  | none => 0

/-- The scale factor of a run: `atof` of the scale given on the command line,
of the default "1" when none is given. -/
def scale_factor (A : Arith) (env : Env A) : A.D :=
  env.atof (env.argv.scale.getD "1")

/-- The area factor of row `row`: 1.0 without the area-weight flag, the row
area of the collaborator with it. -/
def area_factor (A : Arith) (env : Env A) (flaga : Bool) (row : Nat) : A.D :=
  if flaga then env.G_area_of_cell_at_row row else A.one

/-- The mask row the column loop sees at row `row`: the row of `mgrid` when
`maskexist`, none otherwise. -/
def mask_row (A : Arith) (maskexist : Bool) (mgrid : Nat → RasterBuf A) (row : Nat) :
    Option (RasterBuf A) :=
  if maskexist then some (mgrid row) else none

/-- Contributions of the qualifying cells of the rows listed, row after row and
column after column inside a row, each cell weighted by the area factor of its
row. -/
def grid_contributions (A : Arith) (in_type : RASTER_MAP_TYPE) (grid : Nat → RasterBuf A)
    (maskexist : Bool) (mgrid : Nat → RasterBuf A) (target : Int) (area : Nat → A.D)
    (ncols : Nat) (rows : List Nat) : List A.D :=
  rows.flatMap (fun r =>
    row_contributions A in_type (grid r) (mask_row A maskexist mgrid r) target (area r) ncols)

/-- Value of `maskexist` after lines 155-160: a mask is given on the command
line and `G_find_cell2` finds it. -/
def maskexist_of (A : Arith) (env : Env A) : Bool :=
  match env.argv.mask with
  | some m => (env.G_find_cell2 m "").isSome
  | none => false

/-- Variables of the row loop in a run whose input is `inname`, found in
`mapset`, and whose mask, if it exists, was opened as `maskfd`. -/
def vars_of (A : Arith) (env : Env A) (inname mapset : String) (maskfd : Int) : Vars A where
  nrows := env.G_window_rows
  ncols := env.G_window_cols
  infd := env.G_open_cell_old inname mapset
  maskfd := maskfd
  outfd := 0
  outputdesired := false
  maskexist := maskexist_of A env
  flagf := env.argv.f
  flaga := env.argv.a
  field_answer := env.argv.field
  def_out_val := A.zero
  in_type := env.G_raster_map_type inname mapset
  out_type := DCELL_TYPE

/-- Conditions under which a run gets through setup and reads every row: the
input is given, found, opened and its header read; the cell-area capability is
varies-by-row (2); every input row of the window is read, as `grid`; and a mask
that is given and found is of type CELL, opened, its header read, given
together with a field, and every mask row of the window is read, as `mgrid`. -/
def complete_run (A : Arith) (env : Env A) (inname mapset : String)
    (grid mgrid : Nat → RasterBuf A) : Prop :=
  env.argv.input = some inname ∧
  env.G_find_cell2 inname "" = some mapset ∧
  0 ≤ env.G_open_cell_old inname mapset ∧
  0 ≤ env.G_get_cellhd inname mapset ∧
  env.G_begin_cell_area_calculations = 2 ∧
  (∀ r, r < env.G_window_rows →
    env.G_get_raster_row (env.G_open_cell_old inname mapset) r
      (env.G_raster_map_type inname mapset) = some (grid r)) ∧
  (∀ m, env.argv.mask = some m → (env.G_find_cell2 m "").isSome = true →
    env.G_raster_map_type m mapset = CELL_TYPE ∧
    0 ≤ env.G_open_cell_old m mapset ∧
    0 ≤ env.G_get_cellhd m mapset ∧
    (∃ s, env.argv.field = some s) ∧
    (∀ r, r < env.G_window_rows →
      env.G_get_raster_row (env.G_open_cell_old m mapset) r CELL_TYPE = some (mgrid r)))

/-- The total of the specification for a run: the sum, from 0.0, of the
contributions of the qualifying cells of the window, row after row. -/
def spec_total (A : Arith) (env : Env A) (inname mapset : String)
    (grid mgrid : Nat → RasterBuf A) : A.D :=
  sum_from A A.zero
    (grid_contributions A (env.G_raster_map_type inname mapset) grid (maskexist_of A env) mgrid
      (target_field A env env.argv.field) (area_factor A env env.argv.a)
      env.G_window_cols (List.range env.G_window_rows))

/-- Values of the non-null cells of the window, row after row and column after
column inside a row. -/
def non_null_values (A : Arith) (in_type : RASTER_MAP_TYPE) (grid : Nat → RasterBuf A)
    (nrows ncols : Nat) : List A.D :=
  (List.range nrows).flatMap (fun r =>
    ((List.range ncols).filter (fun col => !is_null A in_type (grid r) col)).map
      (fun col => cell_value A in_type (grid r) col))

/-- For each row of the window, the sum of the values of its qualifying cells
multiplied by the area factor of the row. -/
def row_products (A : Arith) (in_type : RASTER_MAP_TYPE) (grid : Nat → RasterBuf A)
    (maskexist : Bool) (mgrid : Nat → RasterBuf A) (target : Int) (area : Nat → A.D)
    (ncols nrows : Nat) : List A.D :=
  (List.range nrows).map (fun r =>
    A.mul
      (sum_from A A.zero
        (row_values A in_type (grid r) (mask_row A maskexist mgrid r) target ncols))
      (area r))

/-! ## Concrete runs -/

/-- An integer row buffer holding the cells `cs`, 0 beyond them. -/
def cell_row (cs : List Int) : RasterBuf intArith where
  asCELL := fun col => cs.getD col 0
  asFCELL := fun _ => none
  asDCELL := fun _ => none

/-- A floating row buffer holding the cells `ds`, NaN beyond them. -/
def dcell_row (ds : List (Option Int)) : RasterBuf intArith where
  asCELL := fun _ => 0
  asFCELL := fun col => ds.getD col none
  asDCELL := fun col => ds.getD col none

/-- A collaborator for concrete runs. The location holds a raster "in" of type
`in_type` with the rows `grid` and an integer raster "mask" with the rows
`mgrid`, both in mapset "PERMANENT" and nothing else; the window is
`nrows` by `ncols`; the cell-area capability is `cap` and the area of a cell of
row `r` is `area r`; every file name is legal and every open, read and write
succeeds. -/
def location (argv : CommandLine) (in_type : RASTER_MAP_TYPE) (cap : Int)
    (nrows ncols : Nat) (grid mgrid : Nat → RasterBuf intArith)
    (area : Nat → Option Int) : Env intArith where
  argv := argv
  atoi := fun s => if s = "1" then 1 else if s = "2" then 2 else 0
  atof := fun s => if s = "1" then some 1 else if s = "2" then some 2 else some 0
  G_find_cell2 := fun name _ =>
    if name = "in" then some "PERMANENT"
    else if name = "mask" then some "PERMANENT" else none
  G_legal_filename := fun _ => 1
  G_raster_map_type := fun name _ => if name = "in" then in_type else CELL_TYPE
  G_open_cell_old := fun name _ => if name = "in" then 3 else 4
  G_get_cellhd := fun _ _ => 0
  G_window_rows := nrows
  G_window_cols := ncols
  G_open_raster_new := fun _ _ => 5
  G_begin_cell_area_calculations := cap
  G_area_of_cell_at_row := area
  G_get_raster_row := fun fd row _ => if fd = 3 then some (grid row) else some (mgrid row)
  G_put_raster_row := fun _ _ _ => 1

/-- Command line `r.area input=in`. -/
def argv_input : CommandLine :=
  ⟨some "in", none, none, none, none, false, false, false, false⟩

/-- The 2x2 integer grid `[[1,2],[3,4]]`. -/
def grid_2x2 : Nat → RasterBuf intArith :=
  fun r => if r = 0 then cell_row [1, 2] else cell_row [3, 4]

/-- Run `r.area input=in` on the 2x2 integer grid `[[1,2],[3,4]]`. -/
def run_2x2 : Env intArith :=
  location argv_input CELL_TYPE 2 2 2 grid_2x2 grid_2x2 (fun _ => some 1)

/-- Run `r.area input=in scale=2` on the 2x2 integer grid `[[1,2],[3,4]]`. -/
def run_2x2_scale2 : Env intArith :=
  location ⟨some "in", none, none, none, some "2", false, false, false, false⟩
    CELL_TYPE 2 2 2 grid_2x2 grid_2x2 (fun _ => some 1)

/-- Run `r.area -a input=in` on the grid `[[1,2],[3,4]]`, where a cell of row 0
has area 2 and a cell of row 1 has area 3. -/
def run_2x2_area : Env intArith :=
  location ⟨some "in", none, none, none, none, false, false, false, true⟩
    CELL_TYPE 2 2 2 grid_2x2 grid_2x2 (fun r => some (Int.ofNat r + 2))

/-- Run `r.area input=in mask=mask field=1` on the 1x2 integer input `[5, 7]`
with the mask `[1, 0]`. -/
def run_masked : Env intArith :=
  location ⟨some "in", none, some "mask", some "1", none, false, false, false, false⟩
    CELL_TYPE 2 1 2 (fun _ => cell_row [5, 7]) (fun _ => cell_row [1, 0]) (fun _ => some 1)

/-- Run `r.area input=in` on the 1x3 floating input `[1.0, NaN, 3.0]`. -/
def run_nan : Env intArith :=
  location argv_input DCELL_TYPE 2 1 3 (fun _ => dcell_row [some 1, none, some 3])
    (fun _ => cell_row []) (fun _ => some 1)

/-- A cell-area capability error: one of the fatal errors of lines 209-216. -/
def is_cell_size_error : Fatal → Bool
  | Fatal.cell_size_not_measured => true
  | Fatal.cell_size_same => true
  | Fatal.cell_size_error => true
  | _ => false

/-- An end of a run inside the row loop: a failed read or write of a row, or
the `atoi` of a NULL field answer. -/
def is_row_loop_error : Fatal → Bool
  | Fatal.unable_to_read_input _ => true
  | Fatal.unable_to_read_mask _ => true
  | Fatal.failed_writing => true
  | Fatal.atoi_of_null => true
  | _ => false

/-- An end of a run during setup after the parser, lines 162-205. -/
def is_open_error : Fatal → Bool
  | Fatal.raster_not_found => true
  | Fatal.illegal_file_name => true
  | Fatal.unable_to_open_input => true
  | Fatal.unable_to_read_header_input => true
  | Fatal.mask_must_be_CELL => true
  | Fatal.unable_to_open_mask => true
  | Fatal.unable_to_read_header_mask => true
  | Fatal.unable_to_create_output => true
  | _ => false

/-- Whether a run ends with an error of the kind `p`. -/
def aborts_with {α : Type} (p : Fatal → Bool) : Except Fatal α → Bool
  | Except.error e => p e
  | Except.ok _ => false

/-- Run `r.area input=in output=out` on the 2x2 integer grid `[[1,2],[3,4]]`. -/
def run_output : Env intArith :=
  location ⟨some "in", some "out", none, none, none, false, false, false, false⟩
    CELL_TYPE 2 2 2 grid_2x2 grid_2x2 (fun _ => some 1)

/-- Run `r.area input=in mask=mask`, a mask and no field, on the 1x2 input
`[5, 7]` with the mask `[1, 0]`. -/
def run_mask_nofield : Env intArith :=
  location ⟨some "in", none, some "mask", none, none, false, false, false, false⟩
    CELL_TYPE 2 1 2 (fun _ => cell_row [5, 7]) (fun _ => cell_row [1, 0]) (fun _ => some 1)

/-- Run `r.area input=in`, without the area-weight flag, on the 2x2 integer
grid `[[1,2],[3,4]]` in a location whose cell-area capability is uniform (1). -/
def run_uniform : Env intArith :=
  location argv_input CELL_TYPE 1 2 2 grid_2x2 grid_2x2 (fun _ => some 1)

/-- Run `r.area input=in mask=nomask field=1` on the 2x2 integer grid
`[[1,2],[3,4]]`; the location has no raster "nomask". -/
def run_mask_missing : Env intArith :=
  location ⟨some "in", none, some "nomask", some "1", none, false, false, false, false⟩
    CELL_TYPE 2 2 2 grid_2x2 (fun _ => cell_row [0, 0]) (fun _ => some 1)

/-- Run `r.area -n input=in mask=mask field=1` on the 1x2 input `[5, 7]` with
the mask `[1, 0]`. -/
def run_null_fill : Env intArith :=
  location ⟨some "in", none, some "mask", some "1", none, false, false, true, false⟩
    CELL_TYPE 2 1 2 (fun _ => cell_row [5, 7]) (fun _ => cell_row [1, 0]) (fun _ => some 1)

/-- The same run without the mask option. -/
def without_mask (A : Arith) (env : Env A) : Env A :=
  { env with argv := { env.argv with mask := none } }

/-- The same run with the force-single-precision flag given (`b` true) or not. -/
def with_flagf (A : Arith) (env : Env A) (b : Bool) : Env A :=
  { env with argv := { env.argv with f := b } }

/-- The same loop variables with `flagf->answer` set to `b`. -/
def set_flagf (A : Arith) (v : Vars A) (b : Bool) : Vars A :=
  { v with flagf := b }

/-! ## Lemmas on the row scan and on setup -/

theorem sum_from_append (A : Arith) (t : A.D) (xs ys : List A.D) :
    sum_from A t (xs ++ ys) = sum_from A (sum_from A t xs) ys := by
  simp [sum_from, List.foldl_append]

theorem process_col_eq (A : Arith) (env : Env A) (v : Vars A) (inrast : RasterBuf A)
    (inmask : Option (RasterBuf A)) (cellarea tsum : A.D) (col : Nat)
    (hf : inmask = none ∨ ∃ s, v.field_answer = some s) :
    process_col A env v inrast inmask cellarea tsum col =
      Except.ok
        (if qualifies A v.in_type inrast inmask (target_field A env v.field_answer) col then
          (A.add tsum (A.mul (cell_value A v.in_type inrast col) cellarea),
            store A v.flagf (A.mul (cell_value A v.in_type inrast col) cellarea))
        else (tsum, store A v.flagf v.def_out_val)) := by
  have hacc : accumulate A v inrast cellarea tsum col =
      (if is_null A v.in_type inrast col then (tsum, store A v.flagf v.def_out_val)
       else (A.add tsum (A.mul (cell_value A v.in_type inrast col) cellarea),
            store A v.flagf (A.mul (cell_value A v.in_type inrast col) cellarea))) := by
    unfold accumulate is_null cell_value
    cases v.in_type <;> simp
  cases inmask with
  | none =>
    simp only [process_col, hacc, qualifies, is_included, Bool.true_and]
    cases is_null A v.in_type inrast col <;> simp
  | some mbuf =>
    rcases hf with h | ⟨s, hs⟩
    · cases h
    · simp only [process_col, hs, hacc, qualifies, is_included, target_field]
      by_cases hm : mbuf.asCELL col = env.atoi s
      · cases is_null A v.in_type inrast col <;> simp [hm]
      · simp [hm]

theorem col_loop_eq (A : Arith) (env : Env A) (v : Vars A) (inrast : RasterBuf A)
    (inmask : Option (RasterBuf A)) (cellarea : A.D)
    (hf : inmask = none ∨ ∃ s, v.field_answer = some s) (cols : List Nat) (tsum : A.D) :
    col_loop A env v inrast inmask cellarea cols tsum =
      Except.ok
        (sum_from A tsum
          ((cols.filter (qualifies A v.in_type inrast inmask
              (target_field A env v.field_answer))).map
            (fun col => A.mul (cell_value A v.in_type inrast col) cellarea)),
         cols.map (fun col =>
          if qualifies A v.in_type inrast inmask (target_field A env v.field_answer) col then
            store A v.flagf (A.mul (cell_value A v.in_type inrast col) cellarea)
          else store A v.flagf v.def_out_val)) := by
  induction cols generalizing tsum with
  | nil => simp [col_loop, sum_from]
  | cons col rest ih =>
    simp only [col_loop, process_col_eq A env v inrast inmask cellarea tsum col hf]
    by_cases hq : qualifies A v.in_type inrast inmask (target_field A env v.field_answer) col
    · simp [hq, ih, sum_from, List.filter_cons]
    · simp [hq, ih, sum_from, List.filter_cons]

theorem row_loop_eq (A : Arith) (env : Env A) (v : Vars A) (grid mgrid : Nat → RasterBuf A)
    (hout : v.outputdesired = false)
    (hfield : v.maskexist = true → ∃ s, v.field_answer = some s)
    (rows : List Nat)
    (hin : ∀ r ∈ rows, env.G_get_raster_row v.infd r v.in_type = some (grid r))
    (hmask : v.maskexist = true →
      ∀ r ∈ rows, env.G_get_raster_row v.maskfd r CELL_TYPE = some (mgrid r))
    (s : LoopState A) :
    ∃ ca, row_loop A env v rows s =
      Except.ok ⟨sum_from A s.tsum
        (grid_contributions A v.in_type grid v.maskexist mgrid
          (target_field A env v.field_answer)
          (fun r => if v.flaga then env.G_area_of_cell_at_row r else s.cellarea)
          v.ncols rows), ca, s.written⟩ := by
  induction rows generalizing s with
  | nil => exact ⟨s.cellarea, by simp [row_loop, grid_contributions, sum_from]⟩
  | cons row rest ih =>
    have hrd : read_mask A env v row = Except.ok (mask_row A v.maskexist mgrid row) := by
      unfold read_mask mask_row
      by_cases hm : v.maskexist = true
      · simp [hm, hmask hm row (List.mem_cons_self _ _)]
      · simp [hm]
    have hfm : mask_row A v.maskexist mgrid row = none ∨ ∃ s, v.field_answer = some s := by
      by_cases hm : v.maskexist = true
      · exact Or.inr (hfield hm)
      · left; simp [mask_row, hm]
    have hin1 := hin row (List.mem_cons_self _ _)
    have hin2 : ∀ r ∈ rest, env.G_get_raster_row v.infd r v.in_type = some (grid r) :=
      fun r hr => hin r (List.mem_cons_of_mem _ hr)
    have hmask2 : v.maskexist = true →
        ∀ r ∈ rest, env.G_get_raster_row v.maskfd r CELL_TYPE = some (mgrid r) :=
      fun hm r hr => hmask hm r (List.mem_cons_of_mem _ hr)
    simp only [row_loop, hin1, hrd, col_loop_eq A env v (grid row) _ _ hfm, hout]
    obtain ⟨ca, hca⟩ := ih hin2 hmask2
      ⟨sum_from A s.tsum
          (row_contributions A v.in_type (grid row) (mask_row A v.maskexist mgrid row)
            (target_field A env v.field_answer)
            (if v.flaga then env.G_area_of_cell_at_row row else s.cellarea) v.ncols),
        (if v.flaga then env.G_area_of_cell_at_row row else s.cellarea), s.written⟩
    refine ⟨ca, ?_⟩
    simp only [row_contributions] at hca
    simp only [Bool.false_eq_true, if_false]
    rw [hca]
    simp only [grid_contributions, List.flatMap_cons, sum_from_append, row_contributions]
    cases v.flaga <;> simp

theorem scan_and_report_eq (A : Arith) (env : Env A) (v : Vars A) (scale : Opt)
    (grid mgrid : Nat → RasterBuf A)
    (hcap : env.G_begin_cell_area_calculations = 2)
    (hout : v.outputdesired = false)
    (hfield : v.maskexist = true → ∃ s, v.field_answer = some s)
    (hin : ∀ r, r < v.nrows → env.G_get_raster_row v.infd r v.in_type = some (grid r))
    (hmask : v.maskexist = true →
      ∀ r, r < v.nrows → env.G_get_raster_row v.maskfd r CELL_TYPE = some (mgrid r)) :
    scan_and_report A env v scale =
      Except.ok ⟨A.mul
        (sum_from A A.zero
          (grid_contributions A v.in_type grid v.maskexist mgrid
            (target_field A env v.field_answer) (area_factor A env v.flaga)
            v.ncols (List.range v.nrows)))
        (fscale A env scale), []⟩ := by
  obtain ⟨ca, hca⟩ := row_loop_eq A env v grid mgrid hout hfield (List.range v.nrows)
    (fun r hr => hin r (List.mem_range.mp hr))
    (fun hm r hr => hmask hm r (List.mem_range.mp hr)) ⟨A.zero, A.one, []⟩
  have harea : (fun r => if v.flaga = true then env.G_area_of_cell_at_row r else A.one) =
      area_factor A env v.flaga := by
    funext r
    simp [area_factor]
  simp only [scan_and_report, hcap, hca]
  simp [harea]

theorem setup_eq (A : Arith) (env : Env A) (inname mapset : String) (maskfd : Int)
    (h_in : env.argv.input = some inname)
    (h_found : env.G_find_cell2 inname "" = some mapset)
    (h_open : 0 ≤ env.G_open_cell_old inname mapset)
    (h_hd : 0 ≤ env.G_get_cellhd inname mapset)
    (h_mask : open_mask A env (maskexist_of A env) env.argv.mask mapset = Except.ok maskfd) :
    setup A env =
      Except.ok (vars_of A env inname mapset maskfd, ⟨some (env.argv.scale.getD "1")⟩) := by
  have hscale : parsed env.argv.scale ⟨some "1"⟩ = ⟨some (env.argv.scale.getD "1")⟩ := by
    cases h : env.argv.scale <;> simp [parsed]
  have hfield : parsed env.argv.field ⟨none⟩ = ⟨env.argv.field⟩ := by
    cases h : env.argv.field <;> simp [parsed]
  have hmk : parsed env.argv.mask ⟨none⟩ = ⟨env.argv.mask⟩ := by
    cases h : env.argv.mask <;> simp [parsed]
  have hme : (match env.argv.mask with
      | some m => (env.G_find_cell2 m "").isSome
      | none => false) = maskexist_of A env := rfl
  simp only [setup, G_define_option, G_define_standard_option, G_define_flag, G_parser_run,
    h_in, hscale, hfield, hmk, open_maps, h_found, illegal_result, open_output, hme, h_mask]
  simp [not_lt.mpr h_open, not_lt.mpr h_hd, vars_of]

theorem main_complete (A : Arith) (env : Env A) (inname mapset : String)
    (grid mgrid : Nat → RasterBuf A) (h : complete_run A env inname mapset grid mgrid) :
    main A env =
      Except.ok ⟨A.mul (spec_total A env inname mapset grid mgrid) (scale_factor A env), []⟩ := by
  obtain ⟨h_in, h_found, h_open, h_hd, h_cap, h_rows, h_m⟩ := h
  have hom : ∃ maskfd, open_mask A env (maskexist_of A env) env.argv.mask mapset =
        Except.ok maskfd ∧
      (maskexist_of A env = true →
        ∀ r, r < env.G_window_rows →
          env.G_get_raster_row maskfd r CELL_TYPE = some (mgrid r)) := by
    cases hmk : env.argv.mask with
    | none => exact ⟨0, by simp [open_mask, maskexist_of, hmk], by simp [maskexist_of, hmk]⟩
    | some m =>
      by_cases hfd : (env.G_find_cell2 m "").isSome = true
      · obtain ⟨ht, ho, hh, -, hr⟩ := h_m m hmk hfd
        refine ⟨env.G_open_cell_old m mapset, ?_, fun _ => hr⟩
        simp [open_mask, maskexist_of, hmk, hfd, ht, not_lt.mpr ho, not_lt.mpr hh]
      · exact ⟨0, by simp [open_mask, maskexist_of, hmk, hfd],
          by simp [maskexist_of, hmk, hfd]⟩
  obtain ⟨maskfd, hopen, hmrows⟩ := hom
  have hfield : maskexist_of A env = true → ∃ s, env.argv.field = some s := by
    intro hme
    cases hmk : env.argv.mask with
    | none => simp [maskexist_of, hmk] at hme
    | some m =>
      have hfd : (env.G_find_cell2 m "").isSome = true := by
        simpa [maskexist_of, hmk] using hme
      exact (h_m m hmk hfd).2.2.2.1
  simp only [main, setup_eq A env inname mapset maskfd h_in h_found h_open h_hd hopen]
  rw [scan_and_report_eq A env (vars_of A env inname mapset maskfd) _ grid mgrid h_cap rfl
    hfield h_rows hmrows]
  rfl

/-! ## Properties of the program -/

theorem row_contributions_unit (A : Arith) (in_type : RASTER_MAP_TYPE) (inrast : RasterBuf A)
    (target : Int) (ncols : Nat) (h_one : ∀ x, A.mul x A.one = x) :
    row_contributions A in_type inrast none target A.one ncols =
      ((List.range ncols).filter (fun col => !is_null A in_type inrast col)).map
        (fun col => cell_value A in_type inrast col) := by
  have hq : qualifies A in_type inrast none target =
      fun col => !is_null A in_type inrast col := by
    funext col
    simp [qualifies, is_included]
  simp [row_contributions, hq, h_one]

/-- C1: a run with no mask and without the area-weight flag that gets through
setup and reads every row prints the sum of the values of all non-null cells
of the window (for an integer input every cell, for a floating input every
cell that is not NaN), added row after row from 0.0, multiplied by the scale
factor; and the scale factor is `atof "1"`, that is 1.0, when no scale is
given, so that the sum itself is printed. Uses that `x * 1.0 = x`. -/
theorem C1_unmasked_unit_area_total (A : Arith) (env : Env A) (inname mapset : String)
    (grid mgrid : Nat → RasterBuf A)
    (h : complete_run A env inname mapset grid mgrid)
    (h_nomask : env.argv.mask = none) (h_noarea : env.argv.a = false)
    (h_one : ∀ x, A.mul x A.one = x) :
    (main A env).map Report.printed =
        Except.ok (A.mul
          (sum_from A A.zero
            (non_null_values A (env.G_raster_map_type inname mapset) grid
              env.G_window_rows env.G_window_cols))
          (scale_factor A env)) ∧
      (env.argv.scale = none → env.atof "1" = A.one →
        (main A env).map Report.printed =
          Except.ok (sum_from A A.zero
            (non_null_values A (env.G_raster_map_type inname mapset) grid
              env.G_window_rows env.G_window_cols))) := by
  have hme : maskexist_of A env = false := by simp [maskexist_of, h_nomask]
  have htot : spec_total A env inname mapset grid mgrid =
      sum_from A A.zero
        (non_null_values A (env.G_raster_map_type inname mapset) grid
          env.G_window_rows env.G_window_cols) := by
    simp only [spec_total, grid_contributions, hme, mask_row, h_noarea, area_factor,
      Bool.false_eq_true, if_false, non_null_values]
    congr 1
    congr 1
    funext r
    exact row_contributions_unit A _ _ _ _ h_one
  have hmain := main_complete A env inname mapset grid mgrid h
  refine ⟨by rw [hmain, htot]; rfl, ?_⟩
  intro hs h1
  rw [hmain, htot]
  simp only [Except.map, scale_factor, hs, Option.getD_none, h1, h_one]

theorem intArith_mul_one : ∀ x : intArith.D, intArith.mul x intArith.one = x := by
  intro x
  cases x <;> simp [intArith, lift2]

theorem location_complete (argv : CommandLine) (in_type : RASTER_MAP_TYPE)
    (nrows ncols : Nat) (grid mgrid : Nat → RasterBuf intArith) (area : Nat → Option Int)
    (h_in : argv.input = some "in")
    (h_mask : argv.mask = none ∨ (argv.mask = some "mask" ∧ ∃ s, argv.field = some s)) :
    complete_run intArith (location argv in_type 2 nrows ncols grid mgrid area)
      "in" "PERMANENT" grid mgrid := by
  refine ⟨h_in, rfl, by simp [location], by simp [location], rfl, fun r _ => rfl, ?_⟩
  intro m hm _
  rcases h_mask with h | ⟨h, hs⟩
  · simp [location, h] at hm
  · have hmm : m = "mask" := by
      simp only [location] at hm
      rw [h] at hm
      exact (Option.some.inj hm).symm
    subst hmm
    exact ⟨rfl, by simp [location], by simp [location], hs, fun r _ => rfl⟩

/-- Witness of C1: `r.area input=in` on the integer grid `[[1,2],[3,4]]` prints
10.0, and with `scale=2` it prints 20.0. -/
theorem C1_unmasked_unit_area_total_witness :
    (main intArith run_2x2).map Report.printed = Except.ok (some 10) ∧
      (main intArith run_2x2_scale2).map Report.printed = Except.ok (some 20) :=
  ⟨(C1_unmasked_unit_area_total intArith run_2x2 "in" "PERMANENT" grid_2x2 grid_2x2
      (location_complete _ _ _ _ _ _ _ rfl (Or.inl rfl)) rfl rfl intArith_mul_one).2 rfl rfl,
   (C1_unmasked_unit_area_total intArith run_2x2_scale2 "in" "PERMANENT" grid_2x2 grid_2x2
      (location_complete _ _ _ _ _ _ _ rfl (Or.inl rfl)) rfl rfl intArith_mul_one).1⟩

theorem sum_from_eq_add (A : Arith)
    (h_assoc : ∀ x y z, A.add (A.add x y) z = A.add x (A.add y z))
    (h_add_zero : ∀ x, A.add x A.zero = x) (h_zero_add : ∀ x, A.add A.zero x = x)
    (xs : List A.D) (t : A.D) :
    sum_from A t xs = A.add t (sum_from A A.zero xs) := by
  induction xs generalizing t with
  | nil => simp [sum_from, h_add_zero]
  | cons x rest ih =>
    have h1 : sum_from A t (x :: rest) = sum_from A (A.add t x) rest := rfl
    have h2 : sum_from A A.zero (x :: rest) = sum_from A (A.add A.zero x) rest := rfl
    rw [h1, h2, ih (A.add t x), h_zero_add, ih x, h_assoc]

theorem sum_from_scaled (A : Arith) (a : A.D)
    (h_distrib : ∀ x y, A.mul (A.add x y) a = A.add (A.mul x a) (A.mul y a))
    (xs : List A.D) (t : A.D) :
    sum_from A (A.mul t a) (xs.map (fun x => A.mul x a)) = A.mul (sum_from A t xs) a := by
  induction xs generalizing t with
  | nil => rfl
  | cons x rest ih =>
    have h1 : sum_from A (A.mul t a) ((x :: rest).map (fun x => A.mul x a)) =
        sum_from A (A.add (A.mul t a) (A.mul x a)) (rest.map (fun x => A.mul x a)) := rfl
    have h2 : sum_from A t (x :: rest) = sum_from A (A.add t x) rest := rfl
    rw [h1, h2, ← h_distrib, ih]

theorem row_contributions_eq_map (A : Arith) (in_type : RASTER_MAP_TYPE) (inrast : RasterBuf A)
    (inmask : Option (RasterBuf A)) (target : Int) (area : A.D) (ncols : Nat) :
    row_contributions A in_type inrast inmask target area ncols =
      (row_values A in_type inrast inmask target ncols).map (fun x => A.mul x area) := by
  simp [row_contributions, row_values, List.map_map, Function.comp_def]

theorem sum_grid_contributions (A : Arith) (in_type : RASTER_MAP_TYPE)
    (grid : Nat → RasterBuf A) (maskexist : Bool) (mgrid : Nat → RasterBuf A) (target : Int)
    (area : Nat → A.D) (ncols : Nat)
    (h_assoc : ∀ x y z, A.add (A.add x y) z = A.add x (A.add y z))
    (h_add_zero : ∀ x, A.add x A.zero = x) (h_zero_add : ∀ x, A.add A.zero x = x)
    (h_distrib : ∀ x y a, A.mul (A.add x y) a = A.add (A.mul x a) (A.mul y a))
    (rows : List Nat) (h_zero_mul : ∀ r ∈ rows, A.mul A.zero (area r) = A.zero) (t : A.D) :
    sum_from A t (grid_contributions A in_type grid maskexist mgrid target area ncols rows) =
      sum_from A t (rows.map (fun r =>
        A.mul
          (sum_from A A.zero
            (row_values A in_type (grid r) (mask_row A maskexist mgrid r) target ncols))
          (area r))) := by
  induction rows generalizing t with
  | nil => rfl
  | cons r rest ih =>
    have hz := h_zero_mul r (List.mem_cons_self _ _)
    have hrow : sum_from A A.zero
        (row_contributions A in_type (grid r) (mask_row A maskexist mgrid r) target
          (area r) ncols) =
        A.mul (sum_from A A.zero
          (row_values A in_type (grid r) (mask_row A maskexist mgrid r) target ncols))
          (area r) := by
      rw [row_contributions_eq_map]
      have := sum_from_scaled A (area r) (fun x y => h_distrib x y (area r))
        (row_values A in_type (grid r) (mask_row A maskexist mgrid r) target ncols) A.zero
      rw [hz] at this
      exact this
    simp only [grid_contributions, List.flatMap_cons, sum_from_append, List.map_cons]
    rw [sum_from_eq_add A h_assoc h_add_zero h_zero_add
      (row_contributions A in_type (grid r) (mask_row A maskexist mgrid r) target
        (area r) ncols) t, hrow]
    have ih2 := ih (fun r hr => h_zero_mul r (List.mem_cons_of_mem _ hr))
      (A.add t (A.mul (sum_from A A.zero
          (row_values A in_type (grid r) (mask_row A maskexist mgrid r) target ncols))
          (area r)))
    simp only [grid_contributions] at ih2
    rw [ih2]
    rfl

/-- C2: a run with the area-weight flag that gets through setup (the cell-area
capability is varies-by-row) and reads every row prints, times the scale
factor, the sum from 0.0 of the contributions `value * area_of_row(r)` of the
qualifying cells (included by the mask filter and not NaN), each cell once,
row after row for r = 0..nrows-1. Where addition is associative with 0.0
neutral, multiplication distributes over it and `0.0 * area_of_row(r) = 0.0`,
that total is the sum over the rows of (the sum of the qualifying cells of the
row) times `area_of_row(r)`. -/
theorem C2_area_weighted_total (A : Arith) (env : Env A) (inname mapset : String)
    (grid mgrid : Nat → RasterBuf A)
    (h : complete_run A env inname mapset grid mgrid)
    (h_area : env.argv.a = true) :
    (main A env).map Report.printed =
        Except.ok (A.mul
          (sum_from A A.zero
            (grid_contributions A (env.G_raster_map_type inname mapset) grid
              (maskexist_of A env) mgrid (target_field A env env.argv.field)
              env.G_area_of_cell_at_row env.G_window_cols (List.range env.G_window_rows)))
          (scale_factor A env)) ∧
      ((∀ x y z, A.add (A.add x y) z = A.add x (A.add y z)) →
        (∀ x, A.add x A.zero = x) → (∀ x, A.add A.zero x = x) →
        (∀ x y a, A.mul (A.add x y) a = A.add (A.mul x a) (A.mul y a)) →
        (∀ r, r < env.G_window_rows → A.mul A.zero (env.G_area_of_cell_at_row r) = A.zero) →
        sum_from A A.zero
            (grid_contributions A (env.G_raster_map_type inname mapset) grid
              (maskexist_of A env) mgrid (target_field A env env.argv.field)
              env.G_area_of_cell_at_row env.G_window_cols (List.range env.G_window_rows)) =
          sum_from A A.zero
            (row_products A (env.G_raster_map_type inname mapset) grid
              (maskexist_of A env) mgrid (target_field A env env.argv.field)
              env.G_area_of_cell_at_row env.G_window_cols env.G_window_rows)) := by
  have harea : area_factor A env env.argv.a = env.G_area_of_cell_at_row := by
    funext r
    simp [area_factor, h_area]
  refine ⟨?_, ?_⟩
  · rw [main_complete A env inname mapset grid mgrid h]
    simp only [spec_total, harea]
    rfl
  · intro h_assoc h_add_zero h_zero_add h_distrib h_zero_mul
    exact sum_grid_contributions A _ grid _ mgrid _ _ _ h_assoc h_add_zero h_zero_add
      h_distrib (List.range env.G_window_rows)
      (fun r hr => h_zero_mul r (List.mem_range.mp hr)) A.zero

theorem intArith_add_assoc : ∀ x y z : intArith.D,
    intArith.add (intArith.add x y) z = intArith.add x (intArith.add y z) := by
  intro x y z
  cases x <;> cases y <;> cases z <;> simp [intArith, lift2, add_assoc]

theorem intArith_add_zero : ∀ x : intArith.D, intArith.add x intArith.zero = x := by
  intro x
  cases x <;> simp [intArith, lift2]

theorem intArith_zero_add : ∀ x : intArith.D, intArith.add intArith.zero x = x := by
  intro x
  cases x <;> simp [intArith, lift2]

theorem intArith_distrib : ∀ x y a : intArith.D,
    intArith.mul (intArith.add x y) a =
      intArith.add (intArith.mul x a) (intArith.mul y a) := by
  intro x y a
  cases x <;> cases y <;> cases a <;> simp [intArith, lift2, add_mul]

/-- Witness of C2: `r.area -a input=in` on the grid `[[1,2],[3,4]]` with row
areas 2 and 3 prints 1*2 + 2*2 + 3*3 + 4*3 = 27, which is (1+2)*2 + (3+4)*3. -/
theorem C2_area_weighted_total_witness :
    (main intArith run_2x2_area).map Report.printed = Except.ok (some 27) ∧
      sum_from intArith (some 0) [some 2, some 4, some 9, some 12] =
        sum_from intArith (some 0) [some 6, some 21] :=
  ⟨(C2_area_weighted_total intArith run_2x2_area "in" "PERMANENT" grid_2x2 grid_2x2
      (location_complete _ _ _ _ _ _ _ rfl (Or.inl rfl)) rfl).1,
   (C2_area_weighted_total intArith run_2x2_area "in" "PERMANENT" grid_2x2 grid_2x2
      (location_complete _ _ _ _ _ _ _ rfl (Or.inl rfl)) rfl).2
      intArith_add_assoc intArith_add_zero intArith_zero_add intArith_distrib
      (fun r _ => by simp [run_2x2_area, location, intArith, lift2])⟩

/-- C3: with a mask configured and the target field `atoi s`, the column loop
adds a cell to the total exactly when its mask value equals the field and the
cell is not null: a cell whose mask value differs leaves `tsum` unchanged and
its output cell holds the fill value, a cell whose mask value equals the field
and that is not null adds `value * area_factor` and stores it. So a run with a
mask given and found that gets through setup and reads every row prints, times
the scale factor, the sum of the contributions of the cells whose mask value
equals the field and that are not null. -/
theorem C3_mask_gates_total (A : Arith) (env : Env A) (inname mapset m ms s : String)
    (grid mgrid : Nat → RasterBuf A)
    (h : complete_run A env inname mapset grid mgrid)
    (h_mask : env.argv.mask = some m) (h_mfound : env.G_find_cell2 m "" = some ms)
    (h_field : env.argv.field = some s) :
    (∀ (v : Vars A) (inrast mbuf : RasterBuf A) (cellarea tsum : A.D) (col : Nat),
        v.field_answer = some s →
        (mbuf.asCELL col ≠ env.atoi s →
          process_col A env v inrast (some mbuf) cellarea tsum col =
            Except.ok (tsum, store A v.flagf v.def_out_val)) ∧
        (mbuf.asCELL col = env.atoi s → is_null A v.in_type inrast col = false →
          process_col A env v inrast (some mbuf) cellarea tsum col =
            Except.ok (A.add tsum (A.mul (cell_value A v.in_type inrast col) cellarea),
              store A v.flagf (A.mul (cell_value A v.in_type inrast col) cellarea)))) ∧
      (main A env).map Report.printed =
        Except.ok (A.mul
          (sum_from A A.zero
            (grid_contributions A (env.G_raster_map_type inname mapset) grid true mgrid
              (env.atoi s) (area_factor A env env.argv.a) env.G_window_cols
              (List.range env.G_window_rows)))
          (scale_factor A env)) := by
  refine ⟨?_, ?_⟩
  · intro v inrast mbuf cellarea tsum col hs
    have hp := process_col_eq A env v inrast (some mbuf) cellarea tsum col (Or.inr ⟨s, hs⟩)
    refine ⟨fun hne => ?_, fun heq hnn => ?_⟩
    · rw [hp]
      simp [qualifies, is_included, target_field, hs, hne]
    · rw [hp]
      simp [qualifies, is_included, target_field, hs, heq, hnn]
  · have hme : maskexist_of A env = true := by simp [maskexist_of, h_mask, h_mfound]
    rw [main_complete A env inname mapset grid mgrid h]
    simp only [spec_total, hme, h_field, target_field]
    rfl

/-- Witness of C3: `r.area input=in mask=mask field=1` on the input `[5, 7]`
with the mask `[1, 0]` prints 5.0, and the column loop leaves the output row
`[5.0, fill]` with the fill 0.0. -/
theorem C3_mask_gates_total_witness :
    (main intArith run_masked).map Report.printed = Except.ok (some 5) ∧
      col_loop intArith run_masked (vars_of intArith run_masked "in" "PERMANENT" 4)
          (cell_row [5, 7]) (some (cell_row [1, 0])) (some 1) (List.range 2) (some 0) =
        Except.ok (some 5, [OutCell.dcell (some 5), OutCell.dcell (some 0)]) ∧
      process_col intArith run_masked (vars_of intArith run_masked "in" "PERMANENT" 4)
          (cell_row [5, 7]) (some (cell_row [1, 0])) (some 1) (some 5) 1 =
        Except.ok (some 5, OutCell.dcell (some 0)) :=
  ⟨(C3_mask_gates_total intArith run_masked "in" "PERMANENT" "mask" "PERMANENT" "1"
      (fun _ => cell_row [5, 7]) (fun _ => cell_row [1, 0])
      (location_complete _ _ _ _ _ _ _ rfl (Or.inr ⟨rfl, "1", rfl⟩)) rfl rfl rfl).2,
   rfl,
   ((C3_mask_gates_total intArith run_masked "in" "PERMANENT" "mask" "PERMANENT" "1"
      (fun _ => cell_row [5, 7]) (fun _ => cell_row [1, 0])
      (location_complete _ _ _ _ _ _ _ rfl (Or.inr ⟨rfl, "1", rfl⟩)) rfl rfl rfl).1
      (vars_of intArith run_masked "in" "PERMANENT" 4) (cell_row [5, 7]) (cell_row [1, 0])
      (some 1) (some 5) 1 rfl).1 (by decide)⟩

/-- C4: for a SingleFloat or DoubleFloat input, a cell that is NaN leaves
`tsum` unchanged and its output cell holds the fill value, with no mask as
with a mask (given with its field), whatever the mask value at the cell. -/
theorem C4_nan_cell_excluded (A : Arith) (env : Env A) (v : Vars A)
    (inrast : RasterBuf A) (inmask : Option (RasterBuf A)) (cellarea tsum : A.D) (col : Nat)
    (h_nan : (v.in_type = FCELL_TYPE ∧ A.isnanF (inrast.asFCELL col) = true) ∨
      (v.in_type = DCELL_TYPE ∧ A.isnanD (inrast.asDCELL col) = true))
    (h_field : inmask = none ∨ ∃ s, v.field_answer = some s) :
    process_col A env v inrast inmask cellarea tsum col =
      Except.ok (tsum, store A v.flagf v.def_out_val) := by
  have hnull : is_null A v.in_type inrast col = true := by
    rcases h_nan with ⟨ht, hn⟩ | ⟨ht, hn⟩ <;> simp [is_null, ht, hn]
  rw [process_col_eq A env v inrast inmask cellarea tsum col h_field]
  simp [qualifies, hnull]

/-- Witness of C4: on the floating input `[1.0, NaN, 3.0]` with no mask the
NaN cell of column 1 leaves the total 1.0 unchanged and its output cell at the
fill 0.0; the row gives the total 4.0 and the output row `[1.0, fill, 3.0]`,
and `r.area input=in` prints 4.0. -/
theorem C4_nan_cell_excluded_witness :
    process_col intArith run_nan (vars_of intArith run_nan "in" "PERMANENT" 0)
        (dcell_row [some 1, none, some 3]) none (some 1) (some 1) 1 =
      Except.ok (some 1, OutCell.dcell (some 0)) ∧
      col_loop intArith run_nan (vars_of intArith run_nan "in" "PERMANENT" 0)
          (dcell_row [some 1, none, some 3]) none (some 1) (List.range 3) (some 0) =
        Except.ok (some 4,
          [OutCell.dcell (some 1), OutCell.dcell (some 0), OutCell.dcell (some 3)]) ∧
      (main intArith run_nan).map Report.printed = Except.ok (some 4) :=
  ⟨C4_nan_cell_excluded intArith run_nan (vars_of intArith run_nan "in" "PERMANENT" 0)
      (dcell_row [some 1, none, some 3]) none (some 1) (some 1) 1 (Or.inr ⟨rfl, rfl⟩)
      (Or.inl rfl),
   rfl, rfl⟩

theorem col_loop_error (A : Arith) (env : Env A) (v : Vars A) (inrast : RasterBuf A)
    (inmask : Option (RasterBuf A)) (cellarea : A.D) (cols : List Nat) (tsum : A.D)
    (e : Fatal) (h : col_loop A env v inrast inmask cellarea cols tsum = Except.error e) :
    e = Fatal.atoi_of_null := by
  induction cols generalizing tsum with
  | nil => simp [col_loop] at h
  | cons col rest ih =>
    simp only [col_loop] at h
    split at h
    · rename_i e1 hp
      cases h
      unfold process_col at hp
      split at hp
      · split at hp
        · cases hp; rfl
        · split at hp <;> cases hp
      · cases hp
    · split at h
      · rename_i e2 hc
        cases h
        exact ih _ hc
      · cases h

theorem row_loop_error (A : Arith) (env : Env A) (v : Vars A) (rows : List Nat)
    (s : LoopState A) (e : Fatal) (h : row_loop A env v rows s = Except.error e) :
    is_row_loop_error e = true := by
  induction rows generalizing s with
  | nil => simp [row_loop] at h
  | cons row rest ih =>
    simp only [row_loop] at h
    split at h
    · cases h; rfl
    · split at h
      · rename_i e1 hr
        cases h
        unfold read_mask at hr
        split at hr
        · split at hr
          · cases hr; rfl
          · cases hr
        · cases hr
      · split at h
        · rename_i e2 hc
          cases h
          rw [col_loop_error A env v _ _ _ _ _ _ hc]
          rfl
        · split at h
          · split at h
            · cases h; rfl
            · exact ih _ h
          · exact ih _ h

theorem row_loop_written (A : Arith) (env : Env A) (v : Vars A)
    (hout : v.outputdesired = false) (rows : List Nat) (s s1 : LoopState A)
    (h : row_loop A env v rows s = Except.ok s1) : s1.written = s.written := by
  induction rows generalizing s with
  | nil =>
    simp only [row_loop] at h
    cases h
    rfl
  | cons row rest ih =>
    simp only [row_loop, hout] at h
    split at h
    · cases h
    · split at h
      · cases h
      · split at h
        · cases h
        · simp only [Bool.false_eq_true, if_false] at h
          have h2 := ih _ h
          exact h2

theorem open_maps_vars (A : Arith) (env : Env A) (o : Options) (out_type : RASTER_MAP_TYPE)
    (def_out_val : A.D) (v : Vars A)
    (h : open_maps A env o false out_type def_out_val = Except.ok v) :
    v.outputdesired = false ∧ v.def_out_val = def_out_val ∧ v.out_type = out_type ∧
      v.flagf = o.flagf.answer ∧ v.flaga = o.flaga.answer := by
  simp only [open_maps, illegal_result, open_output, Bool.false_and, Bool.false_eq_true,
    if_false] at h
  repeat' split at h
  all_goals first
    | (cases h; exact ⟨rfl, rfl, rfl, rfl, rfl⟩)
    | cases h

theorem open_mask_error (A : Arith) (env : Env A) (maskexist : Bool)
    (maskname : Option String) (mapset : String) (e : Fatal)
    (h : open_mask A env maskexist maskname mapset = Except.error e) :
    is_open_error e = true := by
  simp only [open_mask] at h
  repeat' split at h
  all_goals first
    | (cases h; rfl)
    | cases h

theorem open_maps_error (A : Arith) (env : Env A) (o : Options) (out_type : RASTER_MAP_TYPE)
    (def_out_val : A.D) (e : Fatal)
    (h : open_maps A env o false out_type def_out_val = Except.error e) :
    e = Fatal.parser_exit ∨ is_open_error e = true := by
  simp only [open_maps, illegal_result, open_output, Bool.false_and, Bool.false_eq_true,
    if_false] at h
  repeat' split at h
  all_goals first
    | (cases h; exact Or.inl rfl)
    | (cases h; exact Or.inr rfl)
    | (cases h; exact Or.inr (open_mask_error A env _ _ _ _ (by assumption)))
    | cases h

theorem setup_vars (A : Arith) (env : Env A) (v : Vars A) (sc : Opt)
    (h : setup A env = Except.ok (v, sc)) :
    v.outputdesired = false ∧ v.def_out_val = A.zero ∧ v.out_type = DCELL_TYPE ∧
      v.flagf = env.argv.f ∧ v.flaga = env.argv.a := by
  simp only [setup, G_define_option, G_define_standard_option, G_define_flag,
    Option.isSome_none, Option.isNone_none, Bool.false_and, Bool.false_eq_true, if_false] at h
  split at h
  · cases h
  · rename_i o ho
    split at h
    · cases h
    · rename_i v1 hv
      cases h
      obtain ⟨h1, h2, h3, h4, h5⟩ := open_maps_vars A env o _ _ _ hv
      unfold G_parser_run at ho
      split at ho
      · cases ho
      · cases ho
        exact ⟨h1, h2, h3, by simpa using h4, by simpa using h5⟩

theorem setup_error (A : Arith) (env : Env A) (e : Fatal)
    (h : setup A env = Except.error e) :
    e = Fatal.parser_exit ∨ is_open_error e = true := by
  simp only [setup, G_define_option, G_define_standard_option, G_define_flag,
    Option.isSome_none, Option.isNone_none, Bool.false_and, Bool.false_eq_true, if_false] at h
  split at h
  · cases h; exact Or.inl rfl
  · split at h
    · rename_i e1 he
      cases h
      exact open_maps_error A env _ _ _ _ he
    · cases h

theorem main_written (A : Arith) (env : Env A) :
    (main A env).map Report.written = (main A env).map (fun _ => []) := by
  unfold main
  split
  · rfl
  · rename_i v sc hs
    have hout := (setup_vars A env v sc hs).1
    unfold scan_and_report
    simp only
    split
    · rfl
    · split
      · rfl
      · split
        · rfl
        · split
          · rfl
          · rename_i s1 hr
            have hw := row_loop_written A env v hout _ _ _ hr
            simp only [Except.map]
            rw [hw]

/-- C5 (the code departs from it): whatever the command line, no row is handed
to the output writer, since `outputdesired` is computed at line 88 from the
answer of the freshly defined output option, before `G_parser` has stored the
command line. In particular `r.area input=in output=out` on the grid
`[[1,2],[3,4]]` prints 10.0 and writes none of the two rows. -/
theorem C5_no_output_row_is_written :
    (∀ (A : Arith) (env : Env A),
        (main A env).map Report.written = (main A env).map (fun _ => [])) ∧
      run_output.argv.output = some "out" ∧
      run_output.G_window_rows = 2 ∧
      main intArith run_output = Except.ok ⟨some 10, []⟩ :=
  ⟨main_written, rfl, rfl, rfl⟩

theorem main_error (A : Arith) (env : Env A) (e : Fatal)
    (h : main A env = Except.error e) :
    e = Fatal.parser_exit ∨ is_open_error e = true ∨ is_cell_size_error e = true ∨
      is_row_loop_error e = true := by
  unfold main at h
  split at h
  · rename_i e1 he
    cases h
    rcases setup_error A env _ he with h1 | h1
    · exact Or.inl h1
    · exact Or.inr (Or.inl h1)
  · unfold scan_and_report at h
    simp only at h
    split at h
    · cases h; exact Or.inr (Or.inr (Or.inl rfl))
    · split at h
      · cases h; exact Or.inr (Or.inr (Or.inl rfl))
      · split at h
        · cases h; exact Or.inr (Or.inr (Or.inl rfl))
        · split at h
          · rename_i e2 hr
            cases h
            exact Or.inr (Or.inr (Or.inr (row_loop_error A env _ _ _ _ hr)))
          · cases h

theorem main_never_field_error (A : Arith) (env : Env A) :
    main A env ≠ Except.error Fatal.field_must_be_given := by
  intro h
  rcases main_error A env _ h with h1 | h1 | h1 | h1 <;> cases h1

/-- C6 (the code departs from it): no run ends with the fatal error "option
field must be given when raster mask is given", since the test of line 109
reads the answers of the freshly defined options, before `G_parser` has stored
the command line. `r.area input=in mask=mask`, a mask and no field, gets
through setup with `maskexist` set and the field answer NULL, opens and reads
the rasters, and ends in the row scan at `atoi(field->answer)` of line 252. -/
theorem C6_mask_without_field_reaches_row_scan :
    (∀ (A : Arith) (env : Env A), main A env ≠ Except.error Fatal.field_must_be_given) ∧
      run_mask_nofield.argv.mask = some "mask" ∧
      run_mask_nofield.argv.field = none ∧
      (setup intArith run_mask_nofield).map (fun p => (p.1.maskexist, p.1.field_answer)) =
        Except.ok (true, none) ∧
      main intArith run_mask_nofield = Except.error Fatal.atoi_of_null :=
  ⟨main_never_field_error, rfl, rfl, rfl, rfl⟩

theorem scan_abort_iff (A : Arith) (env : Env A) (v : Vars A) (scale : Opt) :
    aborts_with is_cell_size_error (scan_and_report A env v scale) = true ↔
      env.G_begin_cell_area_calculations ≠ 2 := by
  unfold scan_and_report
  simp only
  split
  · rename_i h0
    simp [aborts_with, is_cell_size_error, h0]
  · split
    · rename_i h1
      simp [aborts_with, is_cell_size_error, h1]
    · split
      · rename_i h2
        simp [aborts_with, is_cell_size_error, h2]
      · rename_i h2
        have h2b : env.G_begin_cell_area_calculations = 2 := not_not.mp h2
        split
        · rename_i e hr
          have he := row_loop_error A env v _ _ e hr
          have : is_cell_size_error e = false := by
            cases e <;> simp_all [is_row_loop_error, is_cell_size_error]
          simp [aborts_with, this, h2b]
        · simp [aborts_with, h2b]

/-- C7 (amended): a run that gets through setup aborts with a cell-area
capability error exactly when the capability of the collaborator is not
varies-by-row (2), so when it is unmeasurable (0) or uniform (1), with the
area-weight flag as without it. With the capability varies-by-row and the
flag off, a run that reads every row uses the area factor 1.0 for every
row. -/
theorem C7_capability_abort (A : Arith) (env : Env A) (inname mapset : String)
    (grid mgrid : Nat → RasterBuf A) :
    (aborts_with is_cell_size_error (main A env) = true ↔
        (∃ v sc, setup A env = Except.ok (v, sc)) ∧
          env.G_begin_cell_area_calculations ≠ 2) ∧
      (complete_run A env inname mapset grid mgrid → env.argv.a = false →
        (main A env).map Report.printed =
          Except.ok (A.mul
            (sum_from A A.zero
              (grid_contributions A (env.G_raster_map_type inname mapset) grid
                (maskexist_of A env) mgrid (target_field A env env.argv.field)
                (fun _ => A.one) env.G_window_cols (List.range env.G_window_rows)))
            (scale_factor A env))) := by
  refine ⟨?_, ?_⟩
  · unfold main
    split
    · rename_i e he
      have hne : is_cell_size_error e = false := by
        rcases setup_error A env e he with h1 | h1
        · rw [h1]; rfl
        · cases e <;> simp_all [is_open_error, is_cell_size_error]
      simp [aborts_with, hne, he]
    · rename_i v sc hs
      rw [scan_abort_iff A env v sc]
      constructor
      · intro h
        exact ⟨⟨v, sc, hs⟩, h⟩
      · intro h
        exact h.2
  · intro h h_noarea
    have harea : area_factor A env env.argv.a = fun _ => A.one := by
      funext r
      simp [area_factor, h_noarea]
    rw [main_complete A env inname mapset grid mgrid h]
    simp only [spec_total, harea]
    rfl

/-- Witness of C7: without the area-weight flag, in a location whose cell-area
capability is uniform the run aborts with a capability error, and in a
location whose capability is varies-by-row `r.area input=in` on the grid
`[[1,2],[3,4]]` prints 10.0. -/
theorem C7_capability_abort_witness :
    aborts_with is_cell_size_error (main intArith run_uniform) = true ∧
      (main intArith run_2x2).map Report.printed = Except.ok (some 10) :=
  ⟨(C7_capability_abort intArith run_uniform "in" "PERMANENT" grid_2x2 grid_2x2).1.mpr
      ⟨⟨_, _, rfl⟩, by decide⟩,
   (C7_capability_abort intArith run_2x2 "in" "PERMANENT" grid_2x2 grid_2x2).2
      (location_complete _ _ _ _ _ _ _ rfl (Or.inl rfl)) rfl⟩

/-- Counterexample of C7: without the area-weight flag, in a location whose
cell-area capability is uniform (1), `r.area input=in` does not proceed to the
row scan: it aborts with "Cell size is the same for all cells". -/
theorem C7_counterexample :
    run_uniform.argv.a = false ∧
      run_uniform.G_begin_cell_area_calculations = 1 ∧
      main intArith run_uniform = Except.error Fatal.cell_size_same :=
  ⟨rfl, rfl, rfl⟩

theorem process_col_env (A : Arith) (env1 env2 : Env A) (h1 : env1.atoi = env2.atoi)
    (v : Vars A) (inrast : RasterBuf A) (inmask : Option (RasterBuf A))
    (cellarea tsum : A.D) (col : Nat) :
    process_col A env1 v inrast inmask cellarea tsum col =
      process_col A env2 v inrast inmask cellarea tsum col := by
  simp only [process_col, h1]

theorem col_loop_env (A : Arith) (env1 env2 : Env A) (h1 : env1.atoi = env2.atoi)
    (v : Vars A) (inrast : RasterBuf A) (inmask : Option (RasterBuf A)) (cellarea : A.D)
    (cols : List Nat) (tsum : A.D) :
    col_loop A env1 v inrast inmask cellarea cols tsum =
      col_loop A env2 v inrast inmask cellarea cols tsum := by
  induction cols generalizing tsum with
  | nil => rfl
  | cons col rest ih =>
    simp only [col_loop, process_col_env A env1 env2 h1, ih]

theorem row_loop_env (A : Arith) (env1 env2 : Env A) (h1 : env1.atoi = env2.atoi)
    (h2 : env1.G_area_of_cell_at_row = env2.G_area_of_cell_at_row)
    (h3 : env1.G_get_raster_row = env2.G_get_raster_row)
    (h4 : env1.G_put_raster_row = env2.G_put_raster_row)
    (v : Vars A) (rows : List Nat) (s : LoopState A) :
    row_loop A env1 v rows s = row_loop A env2 v rows s := by
  induction rows generalizing s with
  | nil => rfl
  | cons row rest ih =>
    simp only [row_loop, read_mask, h2, h3, h4, col_loop_env A env1 env2 h1, ih]

theorem scan_and_report_env (A : Arith) (env1 env2 : Env A) (h1 : env1.atoi = env2.atoi)
    (h2 : env1.G_area_of_cell_at_row = env2.G_area_of_cell_at_row)
    (h3 : env1.G_get_raster_row = env2.G_get_raster_row)
    (h4 : env1.G_put_raster_row = env2.G_put_raster_row)
    (h5 : env1.G_begin_cell_area_calculations = env2.G_begin_cell_area_calculations)
    (h6 : env1.atof = env2.atof) (v : Vars A) (sc : Opt) :
    scan_and_report A env1 v sc = scan_and_report A env2 v sc := by
  simp only [scan_and_report, fscale, h5, h6, row_loop_env A env1 env2 h1 h2 h3 h4]

theorem main_missing_mask (A : Arith) (env : Env A) (m : String)
    (h_mask : env.argv.mask = some m) (h_missing : env.G_find_cell2 m "" = none) :
    main A env = main A (without_mask A env) := by
  have hs : setup A env = setup A (without_mask A env) := by
    cases hin : env.argv.input with
    | none =>
      simp [setup, G_define_option, G_define_standard_option, G_define_flag, G_parser_run,
        without_mask, hin]
    | some inname =>
      simp [setup, G_define_option, G_define_standard_option, G_define_flag, G_parser_run,
        open_maps, without_mask, parsed, hin, h_mask, h_missing, open_mask, illegal_result,
        open_output]
  unfold main
  rw [hs]
  split
  · rfl
  · exact scan_and_report_env A env (without_mask A env) rfl rfl rfl rfl rfl rfl _ _

/-- C8 (the code departs from it): a mask option that names a raster that
cannot be found raises no error. Lines 155-160 leave `maskexist` at 0 when
`G_find_cell2` returns NULL and have no fatal branch, unlike the lookup of the
input at lines 162-164 and the other mask failures of lines 182-187, so the
run is the run of the same command line without the mask option.
`r.area input=in mask=nomask field=1` on the grid `[[1,2],[3,4]]`, in a
location with no raster "nomask", gets through setup with `maskexist` 0, runs
the row scan and prints 10.0, the total of the whole grid. -/
theorem C8_missing_mask_runs_unmasked :
    run_mask_missing.argv.mask = some "nomask" ∧
      run_mask_missing.G_find_cell2 "nomask" "" = none ∧
      (setup intArith run_mask_missing).map (fun p => p.1.maskexist) = Except.ok false ∧
      main intArith run_mask_missing = Except.ok ⟨some 10, []⟩ ∧
      main intArith run_mask_missing = main intArith (without_mask intArith run_mask_missing) :=
  ⟨rfl, rfl, rfl, rfl, main_missing_mask intArith run_mask_missing "nomask" rfl rfl⟩

theorem setup_fill (A : Arith) (env : Env A) :
    (setup A env).map (fun p => p.1.def_out_val) = (setup A env).map (fun _ => A.zero) := by
  cases hs : setup A env with
  | error e => rfl
  | ok p =>
    have h := (setup_vars A env p.1 p.2 hs).2.1
    simp only [Except.map, h]

/-- C9 (the code departs from it): whatever the command line, the fill value
of a run is 0.0, since `def_out_val` is set at line 135 from the answer of the
freshly defined null-default flag, before `G_parser` has stored the command
line. `r.area -n input=in mask=mask field=1` on the input `[5, 7]` with the
mask `[1, 0]` gets through setup with the fill 0.0, and its column loop leaves
0.0, not NaN, in the output cell of the excluded column 1. -/
theorem C9_fill_is_zero_under_null_flag :
    (∀ (A : Arith) (env : Env A),
        (setup A env).map (fun p => p.1.def_out_val) = (setup A env).map (fun _ => A.zero)) ∧
      run_null_fill.argv.n = true ∧
      (setup intArith run_null_fill).map (fun p => p.1.def_out_val) = Except.ok (some 0) ∧
      (match setup intArith run_null_fill with
        | Except.ok (v, _) =>
          col_loop intArith run_null_fill v (cell_row [5, 7]) (some (cell_row [1, 0]))
            (some 1) (List.range 2) (some 0)
        | Except.error e => Except.error e) =
        Except.ok (some 5, [OutCell.dcell (some 5), OutCell.dcell (some 0)]) :=
  ⟨setup_fill, rfl, rfl, rfl⟩

theorem process_col_flagf (A : Arith) (env : Env A) (v : Vars A) (b : Bool)
    (inrast : RasterBuf A) (inmask : Option (RasterBuf A)) (cellarea tsum : A.D) (col : Nat) :
    (process_col A env (set_flagf A v b) inrast inmask cellarea tsum col).map Prod.fst =
      (process_col A env v inrast inmask cellarea tsum col).map Prod.fst := by
  simp only [process_col, accumulate, set_flagf]
  repeat' split
  all_goals rfl

theorem col_loop_flagf (A : Arith) (env : Env A) (v : Vars A) (b : Bool)
    (inrast : RasterBuf A) (inmask : Option (RasterBuf A)) (cellarea : A.D)
    (cols : List Nat) (tsum : A.D) :
    (col_loop A env (set_flagf A v b) inrast inmask cellarea cols tsum).map Prod.fst =
      (col_loop A env v inrast inmask cellarea cols tsum).map Prod.fst := by
  induction cols generalizing tsum with
  | nil => rfl
  | cons col rest ih =>
    have hp := process_col_flagf A env v b inrast inmask cellarea tsum col
    simp only [col_loop]
    cases h1 : process_col A env (set_flagf A v b) inrast inmask cellarea tsum col with
    | error e1 =>
      cases h2 : process_col A env v inrast inmask cellarea tsum col with
      | error e2 =>
        rw [h1, h2] at hp
        simpa [Except.map] using hp
      | ok p2 =>
        rw [h1, h2] at hp
        simp [Except.map] at hp
    | ok p1 =>
      cases h2 : process_col A env v inrast inmask cellarea tsum col with
      | error e2 =>
        rw [h1, h2] at hp
        simp [Except.map] at hp
      | ok p2 =>
        rw [h1, h2] at hp
        have hfst : p1.1 = p2.1 := by simpa [Except.map] using hp
        have ih2 := ih p2.1
        obtain ⟨t1, o1⟩ := p1
        obtain ⟨t2, o2⟩ := p2
        simp only at hfst
        subst hfst
        simp only
        cases h3 : col_loop A env (set_flagf A v b) inrast inmask cellarea rest t1 with
        | error e3 =>
          cases h4 : col_loop A env v inrast inmask cellarea rest t1 with
          | error e4 =>
            rw [h3, h4] at ih2
            simpa [Except.map] using ih2
          | ok q4 =>
            rw [h3, h4] at ih2
            simp [Except.map] at ih2
        | ok q3 =>
          cases h4 : col_loop A env v inrast inmask cellarea rest t1 with
          | error e4 =>
            rw [h3, h4] at ih2
            simp [Except.map] at ih2
          | ok q4 =>
            rw [h3, h4] at ih2
            have : q3.1 = q4.1 := by simpa [Except.map] using ih2
            simp [Except.map, this]

theorem row_loop_flagf (A : Arith) (env : Env A) (v : Vars A) (b : Bool)
    (hout : v.outputdesired = false) (rows : List Nat) (s : LoopState A) :
    row_loop A env (set_flagf A v b) rows s = row_loop A env v rows s := by
  induction rows generalizing s with
  | nil => rfl
  | cons row rest ih =>
    have hrm : read_mask A env (set_flagf A v b) row = read_mask A env v row := rfl
    have e1 : (set_flagf A v b).flaga = v.flaga := rfl
    have e2 : (set_flagf A v b).infd = v.infd := rfl
    have e3 : (set_flagf A v b).in_type = v.in_type := rfl
    have e4 : (set_flagf A v b).ncols = v.ncols := rfl
    have e5 : (set_flagf A v b).outputdesired = false := hout
    simp only [row_loop, hrm, e1, e2, e3, e4, e5, hout, Bool.false_eq_true, if_false]
    cases env.G_get_raster_row v.infd row v.in_type with
    | none => rfl
    | some inrast =>
      simp only
      cases read_mask A env v row with
      | error e => rfl
      | ok inmask =>
        simp only
        have hc := col_loop_flagf A env v b inrast inmask
          (if v.flaga = true then env.G_area_of_cell_at_row row else s.cellarea)
          (List.range v.ncols) s.tsum
        cases h3 : col_loop A env (set_flagf A v b) inrast inmask
            (if v.flaga = true then env.G_area_of_cell_at_row row else s.cellarea)
            (List.range v.ncols) s.tsum with
        | error e3 =>
          cases h4 : col_loop A env v inrast inmask
              (if v.flaga = true then env.G_area_of_cell_at_row row else s.cellarea)
              (List.range v.ncols) s.tsum with
          | error e4 =>
            rw [h3, h4] at hc
            have : e3 = e4 := by simpa [Except.map] using hc
            simp [this]
          | ok q4 =>
            rw [h3, h4] at hc
            simp [Except.map] at hc
        | ok q3 =>
          cases h4 : col_loop A env v inrast inmask
              (if v.flaga = true then env.G_area_of_cell_at_row row else s.cellarea)
              (List.range v.ncols) s.tsum with
          | error e4 =>
            rw [h3, h4] at hc
            simp [Except.map] at hc
          | ok q4 =>
            rw [h3, h4] at hc
            have h5 : q3.1 = q4.1 := by simpa [Except.map] using hc
            simp only [h5]
            exact ih _

theorem open_maps_flagf (A : Arith) (env : Env A) (o : Options) (b : Bool)
    (od : Bool) (ot : RASTER_MAP_TYPE) (dv : A.D) :
    open_maps A env
        ⟨o.input, o.output, o.mask, o.field, o.scale, o.flagq, ⟨b⟩, o.flagn, o.flaga⟩
        od ot dv =
      (open_maps A env o od ot dv).map (fun v => set_flagf A v b) := by
  simp only [open_maps]
  cases o.input.answer with
  | none => rfl
  | some inname =>
    simp only
    cases env.G_find_cell2 inname "" with
    | none => rfl
    | some mapset =>
      simp only
      cases illegal_result A env od o.output.answer with
      | true => rfl
      | false =>
        simp only [Bool.false_eq_true, if_false]
        by_cases h1 : env.G_open_cell_old inname mapset < 0
        · simp only [h1, if_true]
          rfl
        · simp only [h1, if_false]
          by_cases h2 : env.G_get_cellhd inname mapset < 0
          · simp only [h2, if_true]
            rfl
          · simp only [h2, if_false]
            cases open_mask A env
                (match o.mask.answer with
                  | some m => (env.G_find_cell2 m "").isSome
                  | none => false) o.mask.answer mapset with
            | error e => rfl
            | ok maskfd =>
              simp only
              cases open_output A env od o.output.answer ot with
              | error e => rfl
              | ok outfd => rfl

theorem setup_with_flagf (A : Arith) (env : Env A) (b : Bool) :
    setup A (with_flagf A env b) =
      (setup A env).map (fun p => (set_flagf A p.1 b, p.2)) := by
  have hom : ∀ (o : Options) (od : Bool) (ot : RASTER_MAP_TYPE) (dv : A.D),
      open_maps A (with_flagf A env b) o od ot dv = open_maps A env o od ot dv := by
    intro o od ot dv
    rfl
  cases hin : env.argv.input with
  | none =>
    simp [setup, G_define_option, G_define_standard_option, G_define_flag, G_parser_run,
      with_flagf, hin, Except.map]
  | some inname =>
    simp only [setup, G_define_option, G_define_standard_option, G_define_flag, G_parser_run,
      hom, Option.isSome_none, Bool.false_and, Bool.false_eq_true, if_false, Bool.or_false]
    simp only [with_flagf, hin]
    have h := open_maps_flagf A env
      ⟨⟨some inname⟩, parsed env.argv.output ⟨none⟩, parsed env.argv.mask ⟨none⟩,
        parsed env.argv.field ⟨none⟩, parsed env.argv.scale ⟨some "1"⟩, ⟨env.argv.q⟩,
        ⟨env.argv.f⟩, ⟨env.argv.n⟩, ⟨env.argv.a⟩⟩ b false DCELL_TYPE A.zero
    simp only at h
    rw [h]
    cases open_maps A env
      ⟨⟨some inname⟩, parsed env.argv.output ⟨none⟩, parsed env.argv.mask ⟨none⟩,
        parsed env.argv.field ⟨none⟩, parsed env.argv.scale ⟨some "1"⟩, ⟨env.argv.q⟩,
        ⟨env.argv.f⟩, ⟨env.argv.n⟩, ⟨env.argv.a⟩⟩ false DCELL_TYPE A.zero with
    | error e => rfl
    | ok v => rfl

theorem main_with_flagf (A : Arith) (env : Env A) (b : Bool) :
    main A (with_flagf A env b) = main A env := by
  unfold main
  rw [setup_with_flagf]
  cases hs : setup A env with
  | error e => rfl
  | ok p =>
    have hout := (setup_vars A env p.1 p.2 hs).1
    simp only [Except.map]
    rw [scan_and_report_env A (with_flagf A env b) env rfl rfl rfl rfl rfl rfl]
    have hn : (set_flagf A p.1 b).nrows = p.1.nrows := rfl
    simp only [scan_and_report, row_loop_flagf A env p.1 b hout, hn]

/-- C10: the total does not depend on the output kind. In the column loop the
value of `tsum` after a row is the same with `flagf->answer` set and unset,
for every input row, mask row, field, area factor and starting total; and the
value a run prints, or the error it ends with, is the same with the
force-single-precision flag given and not given. -/
theorem C10_total_independent_of_output_kind :
    (∀ (A : Arith) (env : Env A) (v : Vars A) (inrast : RasterBuf A)
        (inmask : Option (RasterBuf A)) (cellarea : A.D) (cols : List Nat) (tsum : A.D),
        (col_loop A env (set_flagf A v true) inrast inmask cellarea cols tsum).map Prod.fst =
          (col_loop A env (set_flagf A v false) inrast inmask cellarea cols tsum).map
            Prod.fst) ∧
      (∀ (A : Arith) (env : Env A),
        (main A (with_flagf A env true)).map Report.printed =
          (main A (with_flagf A env false)).map Report.printed) := by
  refine ⟨?_, ?_⟩
  · intro A env v inrast inmask cellarea cols tsum
    rw [col_loop_flagf A env v true, col_loop_flagf A env v false]
  · intro A env
    rw [main_with_flagf A env true, main_with_flagf A env false]

end RArea
